import Mathlib

/-!
Shallow embedding of the WebAssembly MVP interpreter of this repository
(src/src/vm.cpp, src/inc/vm.h) and proofs about its execution engine.

Modelling conventions:
* C++ pointers into a function's code bytes become `Nat` offsets; a null
  pointer becomes `none : Option Nat`.
* `std::vector` used as a stack (operand stack, label stack, call stack,
  control stack) becomes a `List` whose HEAD is the vector's BACK (the top
  of the stack); `push_back` is cons, `pop_back` is tail, and
  `v[v.size() - 1 - i]` (i-th slot from the top) is `List.get? i`.
* Exceptions (`throw std::runtime_error`) become `Except.error` carrying
  the thrown message; `std::bad_variant_access` from `std::get` on a
  wrong alternative and `std::out_of_range` from `unordered_map::at`
  also become `Except.error` (both are caught by the catch-all in
  `WasmVM::run` exactly like the explicit throws).
* Machine integers are `Nat`/`Int` with `% 2 ^ 32` (resp. `% 2 ^ 64`)
  applied exactly where the C++ unsigned types wrap.
* The headers common.h / ir.h are not part of src/; the decoder
  primitives (`RD_U32`, `RD_I32`, ...) they provide are modelled from the
  spec (LEB128, little-endian raw words), and module-shape accessors are
  modelled as plain record fields.
-/

namespace Vm

/-- The four value kinds (wasm_type_t restricted to the numeric types the
interpreter constructs). -/
inductive WasmType where
  | i32
  | i64
  | f32
  | f64
deriving DecidableEq, Repr

/-- Value: std::variant over int32_t, int64_t, float, double.  Integer
payloads are the held signed values; float payloads are the raw IEEE-754
bit patterns (the interpreter never computes with floats except f64.add,
which this embedding keeps abstract). -/
inductive Value where
  | i32 (v : Int)
  | i64 (v : Int)
  | f32 (bits : Nat)
  | f64 (bits : Nat)
deriving DecidableEq, Repr

/-- A default-constructed std::variant holds its first alternative
value-initialised: int32_t 0.  `std::vector<Value>::resize` pads with
this. -/
def defaultValue : Value := Value.i32 0

/-- zero_value_for (vm.cpp lines 16-29). -/
def zero_value_for : WasmType → Value
  | WasmType.i32 => Value.i32 0
  | WasmType.i64 => Value.i64 0
  | WasmType.f32 => Value.f32 0
  | WasmType.f64 => Value.f64 0

/-- SigDecl: a function signature (params and results), as consumed by
the engine.  Compared with operator== for call_indirect. -/
structure SigDecl where
  params : List WasmType
  results : List WasmType
deriving DecidableEq, Repr

/-- One (count, type) group of pure locals (ir.h LocalDecl as used by
build_locals_for). -/
structure LocalGroup where
  count : Nat
  type : WasmType
deriving DecidableEq, Repr

/-- FuncDecl: the fields of the parsed function the engine reads.
`num_pure_locals` is a parser-provided field of ir.h (not under src/);
per the spec it is the total count of locals that follow the
parameters. -/
structure FuncDecl where
  sig : SigDecl
  num_pure_locals : Nat
  pure_locals : List LocalGroup
  code_bytes : List Nat
deriving DecidableEq, Repr

/-- Label::Kind (vm.h line 29). -/
inductive LabelKind where
  | Implicit
  | Block
  | Loop
  | If
deriving DecidableEq, Repr

/-- Label (vm.h lines 28-33).  `pc_target`/`pc_else` are byte offsets,
`none` standing for a null pointer. -/
structure Label where
  kind : LabelKind
  pc_target : Option Nat
  pc_else : Option Nat
  stack_height : Nat
deriving DecidableEq, Repr

/-- CtrlMeta (vm.h lines 35-40).  The C++ field `end` is renamed
`end_pc` (Lean keyword). -/
structure CtrlMeta where
  kind : LabelKind
  else_pc : Option Nat
  end_pc : Option Nat
deriving DecidableEq, Repr

/-! ## Decoder primitives

Modelled from the spec: common.h (the buffer_t cursor and the RD_* macro
family) is not under src/.  The spec fixes their wire behaviour: LEB128
signed/unsigned for integer immediates, raw little-endian 4/8-byte words
for float constants, single bytes for opcodes and blocktypes.  A read
past the end of the buffer is a decode failure (`none`), which the
callers below surface as a trap. -/

/-- Read one byte (RD_BYTE / RD_OPCODE): the byte and the advanced
cursor. -/
def readByte (bytes : List Nat) (pc : Nat) : Option (Nat × Nat) :=
  match bytes.get? pc with
  | some b => some (b, pc + 1)
  | none => none

/-- Modelled from the spec: unsigned LEB128 decoding core.  `fuel` bounds
the number of bytes (5 for u32). -/
def readLebU (fuel : Nat) (bytes : List Nat) (pc : Nat) (shift : Nat) (acc : Nat) :
    Option (Nat × Nat) :=
  match fuel with
  | 0 => none
  | f + 1 =>
    match bytes.get? pc with
    | none => none
    | some b =>
      let acc2 := acc + b % 128 * 2 ^ shift
      if b < 128 then some (acc2, pc + 1)
      else readLebU f bytes (pc + 1) (shift + 7) acc2

/-- RD_U32: unsigned LEB128, at most 5 bytes, truncated to 32 bits. -/
def RD_U32 (bytes : List Nat) (pc : Nat) : Option (Nat × Nat) :=
  match readLebU 5 bytes pc 0 0 with
  | some (v, pc2) => some (v % 2 ^ 32, pc2)
  | none => none

/-- Modelled from the spec: signed LEB128 decoding core with sign
extension from the final byte. -/
def readLebS (fuel : Nat) (bytes : List Nat) (pc : Nat) (shift : Nat) (acc : Nat) :
    Option (Int × Nat) :=
  match fuel with
  | 0 => none
  | f + 1 =>
    match bytes.get? pc with
    | none => none
    | some b =>
      let acc2 := acc + b % 128 * 2 ^ shift
      if b < 128 then
        let signed : Int :=
          if b % 128 / 64 = 1 then (acc2 : Int) - 2 ^ (shift + 7) else (acc2 : Int)
        some (signed, pc + 1)
      else readLebS f bytes (pc + 1) (shift + 7) acc2

/-- Normalise an integer into the int32_t value range. -/
def toI32 (v : Int) : Int := (v + 2 ^ 31) % 2 ^ 32 - 2 ^ 31

/-- Normalise an integer into the int64_t value range. -/
def toI64 (v : Int) : Int := (v + 2 ^ 63) % 2 ^ 64 - 2 ^ 63

/-- RD_I32: signed LEB128, at most 5 bytes, held as int32_t. -/
def RD_I32 (bytes : List Nat) (pc : Nat) : Option (Int × Nat) :=
  match readLebS 5 bytes pc 0 0 with
  | some (v, pc2) => some (toI32 v, pc2)
  | none => none

/-- RD_I64: signed LEB128, at most 10 bytes, held as int64_t. -/
def RD_I64 (bytes : List Nat) (pc : Nat) : Option (Int × Nat) :=
  match readLebS 10 bytes pc 0 0 with
  | some (v, pc2) => some (toI64 v, pc2)
  | none => none

/-- Read `n` raw little-endian bytes as one unsigned word. -/
def readRaw (n : Nat) (bytes : List Nat) (pc : Nat) : Option (Nat × Nat) :=
  match n with
  | 0 => some (0, pc)
  | m + 1 =>
    match bytes.get? pc with
    | none => none
    | some b =>
      match readRaw m bytes (pc + 1) with
      | some (hi, pc2) => some (b + hi * 256, pc2)
      | none => none

/-- RD_U32_RAW: 4 raw little-endian bytes. -/
def RD_U32_RAW (bytes : List Nat) (pc : Nat) : Option (Nat × Nat) := readRaw 4 bytes pc

/-- RD_U64_RAW: 8 raw little-endian bytes. -/
def RD_U64_RAW (bytes : List Nat) (pc : Nat) : Option (Nat × Nat) := readRaw 8 bytes pc

/-! ## Opcode byte values

The WASM_OP_* constants come from common.h (not under src/); their
values are the standard WebAssembly 1.0 opcode bytes that the mnemonics
name. -/

/-- Skip `count` consecutive unsigned-LEB immediates (the br_table target
loop in skip_immediate). -/
def skipLebs (count : Nat) (bytes : List Nat) (pc : Nat) : Option Nat :=
  match count with
  | 0 => some pc
  | c + 1 =>
    match RD_U32 bytes pc with
    | some (_, pc2) => skipLebs c bytes pc2
    | none => none

/-- skip_immediate (vm.cpp lines 132-203): advance the cursor past the
immediates of `opcode`; the opcode byte itself has already been
consumed.  Unknown opcodes have no immediates (the default case). -/
def skip_immediate (opcode : Nat) (bytes : List Nat) (pc : Nat) : Option Nat :=
  if opcode = 0x02 ∨ opcode = 0x03 ∨ opcode = 0x04 then
    -- WASM_OP_BLOCK / LOOP / IF: one blocktype byte
    match readByte bytes pc with
    | some (_, pc2) => some pc2
    | none => none
  else if opcode = 0x0C ∨ opcode = 0x0D ∨ opcode = 0x10 ∨ opcode = 0x20 ∨
      opcode = 0x21 ∨ opcode = 0x22 ∨ opcode = 0x23 ∨ opcode = 0x24 ∨
      opcode = 0x3F ∨ opcode = 0x40 then
    -- BR / BR_IF / CALL / LOCAL_GET / LOCAL_SET / LOCAL_TEE /
    -- GLOBAL_GET / GLOBAL_SET / MEMORY_SIZE / MEMORY_GROW: one u32 LEB
    match RD_U32 bytes pc with
    | some (_, pc2) => some pc2
    | none => none
  else if opcode = 0x11 then
    -- CALL_INDIRECT: two u32 LEBs
    match RD_U32 bytes pc with
    | some (_, pc2) =>
      match RD_U32 bytes pc2 with
      | some (_, pc3) => some pc3
      | none => none
    | none => none
  else if opcode = 0x0E then
    -- BR_TABLE: target count, that many targets, then the default
    match RD_U32 bytes pc with
    | some (n, pc2) =>
      match skipLebs n bytes pc2 with
      | some pc3 =>
        match RD_U32 bytes pc3 with
        | some (_, pc4) => some pc4
        | none => none
      | none => none
    | none => none
  else if opcode = 0x28 ∨ opcode = 0x29 ∨ opcode = 0x2A ∨ opcode = 0x2B ∨
      opcode = 0x2C ∨ opcode = 0x2D ∨ opcode = 0x2E ∨ opcode = 0x2F ∨
      opcode = 0x36 ∨ opcode = 0x37 ∨ opcode = 0x38 ∨ opcode = 0x39 ∨
      opcode = 0x3A ∨ opcode = 0x3B then
    -- the memory loads and stores listed in the source: align and offset
    match RD_U32 bytes pc with
    | some (_, pc2) =>
      match RD_U32 bytes pc2 with
      | some (_, pc3) => some pc3
      | none => none
    | none => none
  else if opcode = 0x41 then
    -- I32_CONST: signed LEB
    match RD_I32 bytes pc with
    | some (_, pc2) => some pc2
    | none => none
  else if opcode = 0x42 then
    -- I64_CONST: signed LEB
    match RD_I64 bytes pc with
    | some (_, pc2) => some pc2
    | none => none
  else if opcode = 0x43 then
    -- F32_CONST: 4 raw bytes
    match RD_U32_RAW bytes pc with
    | some (_, pc2) => some pc2
    | none => none
  else if opcode = 0x44 then
    -- F64_CONST: 8 raw bytes
    match RD_U64_RAW bytes pc with
    | some (_, pc2) => some pc2
    | none => none
  else
    some pc

/-- Insert into the control map with unordered_map semantics: an existing
key is overwritten. -/
def mapInsert (m : List (Nat × CtrlMeta)) (k : Nat) (v : CtrlMeta) : List (Nat × CtrlMeta) :=
  match m with
  | [] => [(k, v)]
  | (k0, v0) :: rest => if k0 = k then (k, v) :: rest else (k0, v0) :: mapInsert rest k v

/-- The worker loop of pre_indexing (vm.cpp lines 212-267).  `stack` is
the control stack with its head as the C++ vector's back.  In the END
case the C++ code takes a reference to `ctrl_stack.back()`, pops, and
then writes `meta.end` through the dangling reference; the practical
behaviour (pop, then complete the popped entry) is what is modelled.
`fuel` only bounds the recursion; every iteration consumes at least the
opcode byte, so `bytes.length` fuel can never run out. -/
def preIndexGo (bytes : List Nat) (fuel : Nat) (pc : Nat)
    (stack : List (Nat × CtrlMeta)) (m : List (Nat × CtrlMeta)) :
    Except String (List (Nat × CtrlMeta)) :=
  match fuel with
  | 0 =>
    if pc < bytes.length then Except.error "pre-indexing ran out of fuel"
    else if stack.isEmpty then Except.ok m
    else Except.error "unmatched block/loop/if"
  | f + 1 =>
    if pc < bytes.length then
      match readByte bytes pc with
      | none => Except.error "pre-indexing read out of bounds"
      | some (opcode, pc1) =>
        if opcode = 0x02 ∨ opcode = 0x03 ∨ opcode = 0x04 then
          -- LOOP / IF / BLOCK: consume the blocktype, push a partial entry
          match readByte bytes pc1 with
          | none => Except.error "pre-indexing read out of bounds"
          | some (bt, pc2) =>
            if bt ≠ 0x40 then Except.error "non-empty blocktype is not supported"
            else
              let kind :=
                if opcode = 0x03 then LabelKind.Loop
                else if opcode = 0x04 then LabelKind.If
                else LabelKind.Block
              preIndexGo bytes f pc2 ((pc, CtrlMeta.mk kind none none) :: stack) m
        else if opcode = 0x05 then
          -- ELSE: the top entry must be an if; record the byte after the
          -- else opcode as its else_pc
          match stack with
          | [] => Except.error "else without matching if"
          | (h, meta) :: rest =>
            if meta.kind ≠ LabelKind.If then Except.error "else without matching if"
            else preIndexGo bytes f pc1 ((h, { meta with else_pc := some pc1 }) :: rest) m
        else if opcode = 0x0B then
          -- END: pop the top entry, set its end to the end byte itself,
          -- insert it into the map keyed by the header byte
          match stack with
          | [] => Except.error "end without matching block/loop/if"
          | (h, meta) :: rest =>
            preIndexGo bytes f pc1 rest (mapInsert m h { meta with end_pc := some pc })
        else
          match skip_immediate opcode bytes pc1 with
          | some pc2 => preIndexGo bytes f pc2 stack m
          | none => Except.error "pre-indexing read out of bounds"
    else if stack.isEmpty then Except.ok m
    else Except.error "unmatched block/loop/if"

/-- pre_indexing (vm.cpp lines 205-272): scan the code bytes once,
pairing each structured header with its else/end offsets.  The implicit
function-body entry is seeded with kind Block, key 0 (the first code
byte) and end preset to the code length, exactly as in the source. -/
def pre_indexing (f : FuncDecl) : Except String (List (Nat × CtrlMeta)) :=
  preIndexGo f.code_bytes (f.code_bytes.length + 1) 0
    [(0, CtrlMeta.mk LabelKind.Block none (some f.code_bytes.length))] []

/-! ## Runtime state -/

/-- Frame (vm.h lines 43-50) plus the per-frame ctrl_map the source
stores in it.  `pc` is the buffer cursor offset into
`func.code_bytes`. -/
structure Frame where
  func : FuncDecl
  pc : Nat
  locals : List Value
  labels : List Label
  stack_height_on_entry : Nat
  ctrl_map : List (Nat × CtrlMeta)
deriving DecidableEq, Repr

/-- The mutable VM state (the private fields of WasmVM that execution
touches).  Table entries hold indices into `function_instances` (the
source holds FuncDecl pointers). -/
structure VMState where
  operand_stack : List Value
  call_stack : List Frame
  linear_memory : List Nat
  global_values : List Value
  function_instances : List FuncDecl
  table_instances : List (List (Option Nat))
  module_sigs : List SigDecl
  num_imported_tables : Nat
deriving DecidableEq, Repr

/-- std::vector resize as used on the operand stack (`pop_to` and the
branch restores): keep the bottom `h` values; if the stack is shorter
than `h`, pad the top with default-constructed Values (i32 0). -/
def stackResize (s : List Value) (h : Nat) : List Value :=
  if h ≤ s.length then s.drop (s.length - h)
  else List.replicate (h - s.length) defaultValue ++ s

/-- The parameter-popping loop of build_locals_for (vm.cpp lines
119-121): the i-th popped value is written to slot P-1-i.  `vals` is the
list of values in pop order; `k` starts at P.  An empty `vals` with
slots left cannot occur under the length guard (pop would have
thrown). -/
def writeParamsGo (locals : List Value) (vals : List Value) (k : Nat) : List Value :=
  match vals, k with
  | [], _ => locals
  | _ :: _, 0 => locals
  | v :: rest, j + 1 => writeParamsGo (locals.set j v) rest j

/-- The zero-fill loop over one (count, type) group (vm.cpp lines
124-128): write `count` zero values at consecutive slots starting at
`next`.  (`List.set` past the end is a no-op; the C++ equivalent would
be an out-of-bounds write, which cannot occur when num_pure_locals
covers the groups.) -/
def fillGroup (locals : List Value) (next : Nat) (count : Nat) (t : WasmType) :
    List Value × Nat :=
  match count with
  | 0 => (locals, next)
  | c + 1 => fillGroup (locals.set next (zero_value_for t)) (next + 1) c t

/-- The outer loop over the pure-local groups. -/
def fillGroups (locals : List Value) (next : Nat) : List LocalGroup → List Value × Nat
  | [] => (locals, next)
  | g :: rest =>
    let (l2, n2) := fillGroup locals next g.count g.type
    fillGroups l2 n2 rest

/-- build_locals_for (vm.cpp lines 111-130).  Returns the locals vector
and the operand stack left after popping the parameters. -/
def build_locals_for (ops : List Value) (f : FuncDecl) :
    Except String (List Value × List Value) :=
  let param_count := f.sig.params.length
  if ops.length < param_count then
    Except.error "Not enough values on the operand stack for function parameters"
  else
    let locals0 := List.replicate (param_count + f.num_pure_locals) defaultValue
    let locals1 := writeParamsGo locals0 (ops.take param_count) param_count
    let locals2 := (fillGroups locals1 param_count f.pure_locals).1
    Except.ok (locals2, ops.drop param_count)

/-- add_frame (vm.cpp lines 274-305): pre-index the function, build its
locals (popping the parameters), record the operand height after the
pops, and push the frame whose only label is the implicit function-body
label.  The source never assigns the label's pc_target, so it stays
null. -/
def add_frame (st : VMState) (f : FuncDecl) : Except String VMState :=
  match pre_indexing f with
  | Except.error e => Except.error e
  | Except.ok cm =>
    match build_locals_for st.operand_stack f with
    | Except.error e => Except.error e
    | Except.ok (locals, ops2) =>
      let h := ops2.length
      let fr : Frame :=
        { func := f, pc := 0, locals := locals,
          labels := [Label.mk LabelKind.Implicit none none h],
          stack_height_on_entry := h, ctrl_map := cm }
      Except.ok { st with operand_stack := ops2, call_stack := fr :: st.call_stack }

/-! ## The dispatcher -/

/-- Read a 4-byte little-endian word from linear memory (the memcpy in
i32.load).  An index past the end of memory is undefined behaviour in
the C++; it is modelled as reading zero.  No claim depends on the value
read on that path. -/
def readMem32 (mem : List Nat) (addr : Nat) : Nat :=
  mem.getD addr 0 + mem.getD (addr + 1) 0 * 256 +
    mem.getD (addr + 2) 0 * 65536 + mem.getD (addr + 3) 0 * 16777216

/-- Write a 4-byte little-endian word into linear memory (the memcpy in
i32.store).  `List.set` past the end is a no-op; the C++ equivalent
would be an out-of-bounds write (undefined behaviour). -/
def writeMem32 (mem : List Nat) (addr : Nat) (v : Nat) : List Nat :=
  ((((mem.set addr (v % 256)).set (addr + 1) (v / 256 % 256)).set
    (addr + 2) (v / 65536 % 256)).set (addr + 3) (v / 16777216 % 256))

/-- Interpret a 32-bit unsigned word as int32_t
(static_cast applied to the loaded bits). -/
def u32ToI32 (v : Nat) : Int :=
  if v < 2 ^ 31 then (v : Int) else (v : Int) - 2 ^ 32

/-- Interpret an int32_t value as uint32_t (static_cast on a value
already known non-negative gives the value itself; on a negative value
it wraps). -/
def i32ToU32 (v : Int) : Nat := (v % 2 ^ 32).toNat

/-- The body of one dispatcher case set, after the opcode byte has been
read (vm.cpp run_op, lines 331-817).  `fr` is the current (topmost)
frame, `rest` the remaining call stack, `header` the offset of the
opcode byte and `pc1` the cursor after it.  `f64add` abstracts IEEE-754
double addition on bit patterns (the only float arithmetic the source
performs); every theorem below holds for an arbitrary `f64add`. -/
def runOpCase (f64add : Nat → Nat → Nat) (st : VMState) (fr : Frame)
    (rest : List Frame) (header : Nat) (opcode : Nat) (pc1 : Nat) :
    Except String VMState :=
  let bytes := fr.func.code_bytes
  if opcode = 0x41 then
    -- WASM_OP_I32_CONST
    match RD_I32 bytes pc1 with
    | none => Except.error "decode out of bounds"
    | some (v, pc2) =>
      Except.ok { st with operand_stack := Value.i32 v :: st.operand_stack,
                          call_stack := { fr with pc := pc2 } :: rest }
  else if opcode = 0x42 then
    -- WASM_OP_I64_CONST
    match RD_I64 bytes pc1 with
    | none => Except.error "decode out of bounds"
    | some (v, pc2) =>
      Except.ok { st with operand_stack := Value.i64 v :: st.operand_stack,
                          call_stack := { fr with pc := pc2 } :: rest }
  else if opcode = 0x43 then
    -- WASM_OP_F32_CONST
    match RD_U32_RAW bytes pc1 with
    | none => Except.error "decode out of bounds"
    | some (raw, pc2) =>
      Except.ok { st with operand_stack := Value.f32 raw :: st.operand_stack,
                          call_stack := { fr with pc := pc2 } :: rest }
  else if opcode = 0x44 then
    -- WASM_OP_F64_CONST
    match RD_U64_RAW bytes pc1 with
    | none => Except.error "decode out of bounds"
    | some (raw, pc2) =>
      Except.ok { st with operand_stack := Value.f64 raw :: st.operand_stack,
                          call_stack := { fr with pc := pc2 } :: rest }
  else if opcode = 0x20 then
    -- WASM_OP_LOCAL_GET
    match RD_U32 bytes pc1 with
    | none => Except.error "decode out of bounds"
    | some (idx, pc2) =>
      match fr.locals.get? idx with
      | none => Except.error "local.get index out of bounds"
      | some v =>
        Except.ok { st with operand_stack := v :: st.operand_stack,
                            call_stack := { fr with pc := pc2 } :: rest }
  else if opcode = 0x21 then
    -- WASM_OP_LOCAL_SET: pop first (underflow throws), then bounds-check
    match RD_U32 bytes pc1 with
    | none => Except.error "decode out of bounds"
    | some (idx, pc2) =>
      match st.operand_stack with
      | [] => Except.error "operand stack underflow"
      | v :: ops2 =>
        if idx ≥ fr.locals.length then Except.error "local.set index out of bounds"
        else
          Except.ok { st with operand_stack := ops2,
                              call_stack :=
                                { fr with pc := pc2, locals := fr.locals.set idx v } :: rest }
  else if opcode = 0x22 then
    -- WASM_OP_LOCAL_TEE
    match RD_U32 bytes pc1 with
    | none => Except.error "decode out of bounds"
    | some (idx, pc2) =>
      match st.operand_stack with
      | [] => Except.error "operand stack underflow"
      | v :: ops2 =>
        if idx ≥ fr.locals.length then Except.error "local.tee index out of bounds"
        else
          Except.ok { st with operand_stack := v :: ops2,
                              call_stack :=
                                { fr with pc := pc2, locals := fr.locals.set idx v } :: rest }
  else if opcode = 0x02 then
    -- WASM_OP_BLOCK
    match readByte bytes pc1 with
    | none => Except.error "decode out of bounds"
    | some (bt, pc2) =>
      if bt ≠ 0x40 then Except.error "non-empty blocktype is not supported"
      else
        match (fr.ctrl_map.lookup header : Option CtrlMeta) with
        | none => Except.error "ctrl_map entry missing"
        | some meta =>
          let lbl := Label.mk LabelKind.Block meta.end_pc none st.operand_stack.length
          Except.ok { st with call_stack :=
            { fr with pc := pc2, labels := lbl :: fr.labels } :: rest }
  else if opcode = 0x03 then
    -- WASM_OP_LOOP: pc_target is the byte after the blocktype
    match readByte bytes pc1 with
    | none => Except.error "decode out of bounds"
    | some (bt, pc2) =>
      if bt ≠ 0x40 then Except.error "non-empty blocktype is not supported"
      else
        let lbl := Label.mk LabelKind.Loop (some pc2) none st.operand_stack.length
        Except.ok { st with call_stack :=
          { fr with pc := pc2, labels := lbl :: fr.labels } :: rest }
  else if opcode = 0x04 then
    -- WASM_OP_IF: the label records the height BEFORE the condition pop
    match readByte bytes pc1 with
    | none => Except.error "decode out of bounds"
    | some (bt, pc2) =>
      if bt ≠ 0x40 then Except.error "non-empty blocktype is not supported"
      else if st.operand_stack.length < 1 then
        Except.error "Not enough values on the operand stack for if condition"
      else
        match (fr.ctrl_map.lookup header : Option CtrlMeta) with
        | none => Except.error "ctrl_map entry missing"
        | some meta =>
          let lbl := Label.mk LabelKind.If meta.end_pc none st.operand_stack.length
          match st.operand_stack with
          | [] => Except.error "operand stack underflow"
          | c :: ops2 =>
            match c with
            | Value.i32 cv =>
              if cv ≠ 0 then
                Except.ok { st with
                  operand_stack := ops2,
                  call_stack := { fr with pc := pc2, labels := lbl :: fr.labels } :: rest }
              else
                match meta.else_pc with
                | some e =>
                  Except.ok { st with
                    operand_stack := ops2,
                    call_stack := { fr with pc := e, labels := lbl :: fr.labels } :: rest }
                | none =>
                  match meta.end_pc with
                  | some e =>
                    Except.ok { st with
                      operand_stack := ops2,
                      call_stack := { fr with pc := e, labels := lbl :: fr.labels } :: rest }
                  | none => Except.error "null jump target"
            | _ => Except.error "Condition for if is not i32"
  else if opcode = 0x05 then
    -- WASM_OP_ELSE: jump to the if label's end target and pop the label;
    -- the operand stack is not touched
    match fr.labels with
    | [] => Except.error "else without matching if"
    | lbl :: ls =>
      if lbl.kind ≠ LabelKind.If then Except.error "else without matching if"
      else
        match lbl.pc_target with
        | some e =>
          Except.ok { st with call_stack := { fr with pc := e, labels := ls } :: rest }
        | none => Except.error "null jump target"
  else if opcode = 0x48 then
    -- WASM_OP_I32_LT_S
    match st.operand_stack with
    | v2 :: v1 :: ops2 =>
      match v1, v2 with
      | Value.i32 a, Value.i32 b =>
        let r : Int := if a < b then 1 else 0
        Except.ok { st with operand_stack := Value.i32 r :: ops2,
                            call_stack := { fr with pc := pc1 } :: rest }
      | _, _ => Except.error "bad variant access"
    | _ => Except.error "Not enough values on the operand stack for i32.lt_s"
  else if opcode = 0x45 then
    -- WASM_OP_I32_EQZ
    match st.operand_stack with
    | v :: ops2 =>
      match v with
      | Value.i32 a =>
        let r : Int := if a = 0 then 1 else 0
        Except.ok { st with operand_stack := Value.i32 r :: ops2,
                            call_stack := { fr with pc := pc1 } :: rest }
      | _ => Except.error "bad variant access"
    | _ => Except.error "Not enough values on the operand stack for i32.eqz"
  else if opcode = 0x6A then
    -- WASM_OP_I32_ADD
    match st.operand_stack with
    | v2 :: v1 :: ops2 =>
      match v1, v2 with
      | Value.i32 a, Value.i32 b =>
        Except.ok { st with operand_stack := Value.i32 (toI32 (a + b)) :: ops2,
                            call_stack := { fr with pc := pc1 } :: rest }
      | _, _ => Except.error "bad variant access"
    | _ => Except.error "Not enough values on the operand stack for i32.add"
  else if opcode = 0x6B then
    -- WASM_OP_I32_SUB
    match st.operand_stack with
    | v2 :: v1 :: ops2 =>
      match v1, v2 with
      | Value.i32 a, Value.i32 b =>
        Except.ok { st with operand_stack := Value.i32 (toI32 (a - b)) :: ops2,
                            call_stack := { fr with pc := pc1 } :: rest }
      | _, _ => Except.error "bad variant access"
    | _ => Except.error "Not enough values on the operand stack for i32.sub"
  else if opcode = 0x28 then
    -- WASM_OP_I32_LOAD: both address additions wrap in 32-bit unsigned
    -- arithmetic, exactly as the C++ uint32_t arithmetic does
    match RD_U32 bytes pc1 with
    | none => Except.error "decode out of bounds"
    | some (_, pcA) =>
      match RD_U32 bytes pcA with
      | none => Except.error "decode out of bounds"
      | some (offset, pc2) =>
        match st.operand_stack with
        | [] => Except.error "Not enough values on the operand stack for i32.load"
        | av :: ops2 =>
          match av with
          | Value.i32 a =>
            if a < 0 then Except.error "Address for i32.load is negative"
            else
              let addr := i32ToU32 a
              let effective := (addr + offset) % 2 ^ 32
              if (effective + 4) % 2 ^ 32 > st.linear_memory.length then
                Except.error "i32.load address out of bounds"
              else
                let loaded := readMem32 st.linear_memory effective
                Except.ok { st with
                  operand_stack := Value.i32 (u32ToI32 loaded) :: ops2,
                  call_stack := { fr with pc := pc2 } :: rest }
          | _ => Except.error "Address for i32.load is not i32"
  else if opcode = 0x36 then
    -- WASM_OP_I32_STORE
    match RD_U32 bytes pc1 with
    | none => Except.error "decode out of bounds"
    | some (_, pcA) =>
      match RD_U32 bytes pcA with
      | none => Except.error "decode out of bounds"
      | some (offset, pc2) =>
        match st.operand_stack with
        | v :: av :: ops2 =>
          match av with
          | Value.i32 a =>
            if a < 0 then Except.error "Address for i32.store is negative"
            else
              let addr := i32ToU32 a
              let effective := (addr + offset) % 2 ^ 32
              if (effective + 4) % 2 ^ 32 > st.linear_memory.length then
                Except.error "i32.store address out of bounds"
              else
                match v with
                | Value.i32 sv =>
                  Except.ok { st with
                    operand_stack := ops2,
                    linear_memory := writeMem32 st.linear_memory effective (i32ToU32 sv),
                    call_stack := { fr with pc := pc2 } :: rest }
                | _ => Except.error "bad variant access"
          | _ => Except.error "Address for i32.store is not i32"
        | _ => Except.error "Not enough values on the operand stack for i32.store"
  else if opcode = 0x46 then
    -- WASM_OP_I32_EQ
    match st.operand_stack with
    | v2 :: v1 :: ops2 =>
      match v1, v2 with
      | Value.i32 a, Value.i32 b =>
        let r : Int := if a = b then 1 else 0
        Except.ok { st with operand_stack := Value.i32 r :: ops2,
                            call_stack := { fr with pc := pc1 } :: rest }
      | _, _ => Except.error "bad variant access"
    | _ => Except.error "Not enough values on the operand stack for i32.eq"
  else if opcode = 0xA0 then
    -- WASM_OP_F64_ADD (IEEE-754 addition abstracted by f64add)
    match st.operand_stack with
    | v2 :: v1 :: ops2 =>
      match v1, v2 with
      | Value.f64 a, Value.f64 b =>
        Except.ok { st with operand_stack := Value.f64 (f64add a b) :: ops2,
                            call_stack := { fr with pc := pc1 } :: rest }
      | _, _ => Except.error "bad variant access"
    | _ => Except.error "Not enough values on the operand stack for f64.add"
  else if opcode = 0x01 then
    -- WASM_OP_NOP
    Except.ok { st with call_stack := { fr with pc := pc1 } :: rest }
  else if opcode = 0x00 then
    -- WASM_OP_UNREACHABLE
    Except.error "unreachable executed"
  else if opcode = 0x0B then
    -- WASM_OP_END
    match fr.labels with
    | [] => Except.error "END encountered with no active label"
    | closed :: ls =>
      if ls.isEmpty then
        -- the implicit function-body label: function return
        let retc := fr.func.sig.results.length
        if st.operand_stack.length < retc then
          Except.error "Not enough values on the operand stack for function return"
        else
          let rets := (st.operand_stack.take retc).reverse
          let restored := stackResize (st.operand_stack.drop retc) fr.stack_height_on_entry
          Except.ok { st with operand_stack := rets.reverse ++ restored,
                              call_stack := rest }
      else
        Except.ok { st with
          operand_stack := stackResize st.operand_stack closed.stack_height,
          call_stack := { fr with pc := pc1, labels := ls } :: rest }
  else if opcode = 0x0F then
    -- WASM_OP_RETURN
    let retc := fr.func.sig.results.length
    if st.operand_stack.length < retc then
      Except.error "Not enough values on the operand stack for function return"
    else
      let rets := (st.operand_stack.take retc).reverse
      let restored := stackResize (st.operand_stack.drop retc) fr.stack_height_on_entry
      Except.ok { st with operand_stack := rets.reverse ++ restored,
                          call_stack := rest }
  else if opcode = 0x10 then
    -- WASM_OP_CALL: the cursor advance is visible to the callee push
    match RD_U32 bytes pc1 with
    | none => Except.error "decode out of bounds"
    | some (idx, pc2) =>
      match st.function_instances.get? idx with
      | none => Except.error "call function index out of bounds"
      | some f =>
        add_frame { st with call_stack := { fr with pc := pc2 } :: rest } f
  else if opcode = 0x11 then
    -- WASM_OP_CALL_INDIRECT
    match RD_U32 bytes pc1 with
    | none => Except.error "decode out of bounds"
    | some (type_index, pcA) =>
      match RD_U32 bytes pcA with
      | none => Except.error "decode out of bounds"
      | some (table_index, pc2) =>
        match st.operand_stack with
        | [] => Except.error "Not enough values on the operand stack for call_indirect"
        | tv :: ops2 =>
          match tv with
          | Value.i32 si =>
            if si < 0 then Except.error "call_indirect index out of bounds"
            else
              let elem_index := si.toNat
              if table_index < st.num_imported_tables then
                Except.error "call_indirect into imported table not supported"
              else
                let local_table_index := table_index - st.num_imported_tables
                match st.table_instances.get? local_table_index with
                | none => Except.error "call_indirect table index out of bounds"
                | some table =>
                  match table.get? elem_index with
                  | none => Except.error "call_indirect table element out of bounds"
                  | some entry =>
                    match entry with
                    | none => Except.error "call_indirect null table entry"
                    | some fi =>
                      match st.function_instances.get? fi with
                      | none => Except.error "call_indirect null table entry"
                      | some target =>
                        match st.module_sigs.get? type_index with
                        | none => Except.error "call_indirect bad type index"
                        | some expected =>
                          if target.sig ≠ expected then
                            Except.error "call_indirect signature mismatch"
                          else
                            add_frame
                              { st with operand_stack := ops2,
                                        call_stack := { fr with pc := pc2 } :: rest }
                              target
          | _ => Except.error "call_indirect index is not i32"
  else if opcode = 0x1A then
    -- WASM_OP_DROP
    match st.operand_stack with
    | [] => Except.error "Not enough values on the operand stack for drop"
    | _ :: ops2 =>
      Except.ok { st with operand_stack := ops2,
                          call_stack := { fr with pc := pc1 } :: rest }
  else if opcode = 0x1B then
    -- WASM_OP_SELECT
    match st.operand_stack with
    | c :: v2 :: v1 :: ops2 =>
      match c with
      | Value.i32 cv =>
        let selected := if cv ≠ 0 then v1 else v2
        Except.ok { st with operand_stack := selected :: ops2,
                            call_stack := { fr with pc := pc1 } :: rest }
      | _ => Except.error "Condition for select is not i32"
    | _ => Except.error "Not enough values on the operand stack for select"
  else if opcode = 0x0C then
    -- WASM_OP_BR: resize the label stack to keep the target exposed,
    -- restore the operand height, jump
    match RD_U32 bytes pc1 with
    | none => Except.error "decode out of bounds"
    | some (label_idx, _) =>
      match fr.labels.get? label_idx with
      | none => Except.error "br label index out of bounds"
      | some target =>
        match target.pc_target with
        | none => Except.error "null jump target"
        | some tpc =>
          Except.ok { st with
            operand_stack := stackResize st.operand_stack target.stack_height,
            call_stack :=
              { fr with pc := tpc, labels := fr.labels.drop label_idx } :: rest }
  else if opcode = 0x0D then
    -- WASM_OP_BR_IF: on a truthy condition, jump to the target label but
    -- pop only the topmost label and leave the operand stack alone
    match RD_U32 bytes pc1 with
    | none => Except.error "decode out of bounds"
    | some (label_idx, pc2) =>
      match st.operand_stack with
      | [] => Except.error "Not enough values on the operand stack for br_if"
      | c :: ops2 =>
        match c with
        | Value.i32 cv =>
          if cv ≠ 0 then
            match fr.labels.get? label_idx with
            | none => Except.error "br_if label index out of bounds"
            | some target =>
              match target.pc_target with
              | none => Except.error "null jump target"
              | some tpc =>
                Except.ok { st with
                  operand_stack := ops2,
                  call_stack := { fr with pc := tpc, labels := fr.labels.tail } :: rest }
          else
            Except.ok { st with operand_stack := ops2,
                                call_stack := { fr with pc := pc2 } :: rest }
        | _ => Except.error "Condition for br_if is not i32"
  else if opcode = 0x23 then
    -- WASM_OP_GLOBAL_GET
    match RD_U32 bytes pc1 with
    | none => Except.error "decode out of bounds"
    | some (idx, pc2) =>
      match st.global_values.get? idx with
      | none => Except.error "global.get index out of bounds"
      | some v =>
        Except.ok { st with operand_stack := v :: st.operand_stack,
                            call_stack := { fr with pc := pc2 } :: rest }
  else if opcode = 0x24 then
    -- WASM_OP_GLOBAL_SET: pop first, then bounds-check
    match RD_U32 bytes pc1 with
    | none => Except.error "decode out of bounds"
    | some (idx, pc2) =>
      match st.operand_stack with
      | [] => Except.error "operand stack underflow"
      | v :: ops2 =>
        if idx ≥ st.global_values.length then Except.error "global.set index out of bounds"
        else
          Except.ok { st with operand_stack := ops2,
                              global_values := st.global_values.set idx v,
                              call_stack := { fr with pc := pc2 } :: rest }
  else
    -- default: unknown opcode
    Except.error "Opcode error"

/-- run_op (vm.cpp lines 316-819): check the call stack, check the
cursor, read the opcode, dispatch. -/
def run_op (f64add : Nat → Nat → Nat) (st : VMState) : Except String VMState :=
  match st.call_stack with
  | [] => Except.error "Call stack underflow"
  | fr :: rest =>
    match readByte fr.func.code_bytes fr.pc with
    | none => Except.error "Reached end of buffer"
    | some (opcode, pc1) => runOpCase f64add st fr rest fr.pc opcode pc1

/-! ## Instantiation and the driver (WasmVM::run) -/

/-- A data segment as the engine consumes it (ir.h DataDecl; the fields
read by prepare_data_segments). -/
structure DataSegment where
  mem_offset : Nat
  bytes : List Nat
deriving DecidableEq, Repr

/-- An element segment (ir.h ElemDecl; the fields read by
prepare_element_segments).  Function references are indices into
function_instances. -/
structure ElemSegment where
  table_offset : Nat
  func_indices : List Nat
deriving DecidableEq, Repr

/-- Modelled from the spec: the module description the engine consumes.
ir.h / the parser are not under src/; the cached quantities
(initial memory pages, local table sizes, imported-table count, the
resolved main index) stand for the results of
cache_linear_memory_layout, cache_table_layout and
resolve_main_entrypoint, which only read the parsed module. -/
structure WasmModuleData where
  funcs : List FuncDecl
  global_inits : List Value
  datas : List DataSegment
  elems : List ElemSegment
  initial_pages : Nat
  local_table_sizes : List Nat
  num_imported_tables : Nat
  sigs : List SigDecl
  main_idx : Option Nat
deriving DecidableEq, Repr

/-- WASM_PAGE_SIZE. -/
def WASM_PAGE_SIZE : Nat := 65536

/-- prepare_data_segments (vm.cpp lines 870-878): copy each segment,
trapping when it does not fit. -/
def prepare_data_segments (mem : List Nat) : List DataSegment → Except String (List Nat)
  | [] => Except.ok mem
  | seg :: rest =>
    if seg.mem_offset + seg.bytes.length > mem.length then
      Except.error "Data segment does not fit in linear memory"
    else
      prepare_data_segments
        (mem.take seg.mem_offset ++ seg.bytes ++ mem.drop (seg.mem_offset + seg.bytes.length))
        rest

/-- The element-writing loop of prepare_element_segments (vm.cpp lines
912-918). -/
def writeElems (table : List (Option Nat)) (cursor : Nat) :
    List Nat → Except String (List (Option Nat))
  | [] => Except.ok table
  | fi :: rest =>
    if cursor ≥ table.length then Except.error "Element segment exceeds table bounds"
    else writeElems (table.set cursor (some fi)) (cursor + 1) rest

/-- prepare_element_segments (vm.cpp lines 888-920), restricted as in
the source to active segments targeting table 0. -/
def prepare_element_segments (num_imported_tables : Nat)
    (tables : List (List (Option Nat))) :
    List ElemSegment → Except String (List (List (Option Nat)))
  | [] => Except.ok tables
  | elem :: rest =>
    if 0 < num_imported_tables then
      Except.error "Imported tables are not supported for element segments"
    else
      match tables.get? 0 with
      | none => Except.error "Element segment references missing table"
      | some table =>
        if elem.table_offset > table.length then
          Except.error "Element segment offset outside table bounds"
        else
          match writeElems table elem.table_offset elem.func_indices with
          | Except.error e => Except.error e
          | Except.ok table2 =>
            prepare_element_segments num_imported_tables (tables.set 0 table2) rest

/-- reset_runtime_state (vm.cpp lines 922-937): zeroed linear memory,
null-filled tables, cleared stacks, globals from their initialisers,
data segments, function instances, element segments.  Any trap here is
raised BEFORE the try block in WasmVM::run. -/
def reset_runtime_state (m : WasmModuleData) : Except String VMState :=
  let mem0 := List.replicate (m.initial_pages * WASM_PAGE_SIZE) 0
  let tables0 := m.local_table_sizes.map (fun n => List.replicate n (none : Option Nat))
  match prepare_data_segments mem0 m.datas with
  | Except.error e => Except.error e
  | Except.ok mem =>
    if m.local_table_sizes.length + m.num_imported_tables = 0 then
      Except.ok { operand_stack := [], call_stack := [], linear_memory := mem,
                  global_values := m.global_inits, function_instances := m.funcs,
                  table_instances := tables0, module_sigs := m.sigs,
                  num_imported_tables := m.num_imported_tables }
    else
      match prepare_element_segments m.num_imported_tables tables0 m.elems with
      | Except.error e => Except.error e
      | Except.ok tables =>
        Except.ok { operand_stack := [], call_stack := [], linear_memory := mem,
                    global_values := m.global_inits, function_instances := m.funcs,
                    table_instances := tables, module_sigs := m.sigs,
                    num_imported_tables := m.num_imported_tables }

/-- The dispatch loop of invoke (vm.cpp lines 310-312): run_op until the
call stack empties.  `none` means the fuel ran out (the run is longer
than the bound, or diverges). -/
def runLoop (f64add : Nat → Nat → Nat) : Nat → VMState → Except String (Option VMState)
  | 0, _ => Except.ok none
  | fuel + 1, st =>
    if st.call_stack.isEmpty then Except.ok (some st)
    else
      match run_op f64add st with
      | Except.error e => Except.error e
      | Except.ok st2 => runLoop f64add fuel st2

/-- invoke (vm.cpp lines 307-314): push the frame, then loop. -/
def invoke (f64add : Nat → Nat → Nat) (fuel : Nat) (st : VMState) (f : FuncDecl) :
    Except String (Option VMState) :=
  match add_frame st f with
  | Except.error e => Except.error e
  | Except.ok st2 => runLoop f64add fuel st2

/-- How a modelled run ends. -/
inductive RunOutcome where
  | envError
  | escaped (msg : String)
  | normal
  | fuelOut
deriving DecidableEq, Repr

/-- What a modelled run produces: the lines printed to stdout and how
the call returned.  `escaped` marks an exception propagating out of
WasmVM::run uncaught (nothing below run catches it); `envError` marks
the early ERR returns (stderr diagnostics, no trap). -/
structure RunResult where
  stdout : List String
  outcome : RunOutcome
deriving DecidableEq, Repr

/-- The printing loop of print_final_results: one line per result in
declaration order; std::get on a float result whose Value holds a
different kind throws. -/
def renderResults (valueToString : Value → String) :
    List WasmType → List Value → Except String (List String)
  | [], _ => Except.ok []
  | t :: ts, v :: vs =>
    match t, v with
    | WasmType.f64, Value.f64 _ =>
      match renderResults valueToString ts vs with
      | Except.ok lines => Except.ok (valueToString v :: lines)
      | Except.error e => Except.error e
    | WasmType.f64, _ => Except.error "bad variant access"
    | WasmType.f32, Value.f32 _ =>
      match renderResults valueToString ts vs with
      | Except.ok lines => Except.ok (valueToString v :: lines)
      | Except.error e => Except.error e
    | WasmType.f32, _ => Except.error "bad variant access"
    | _, _ =>
      match renderResults valueToString ts vs with
      | Except.ok lines => Except.ok (valueToString v :: lines)
      | Except.error e => Except.error e
  | _ :: _, [] => Except.error "bad variant access"

/-- print_final_results (vm.cpp lines 73-109): pop the results (top
first), reverse, print one line per result in declaration order.
`valueToString` abstracts the numeric formatting.  A stack-count
mismatch or a kind mismatch on a float result throws — and this call
sits OUTSIDE the try block in run. -/
def print_final_results (valueToString : Value → String) (mainF : FuncDecl)
    (st : VMState) : Except String (List String) :=
  let result_types := mainF.sig.results
  if result_types.length = 0 then Except.ok []
  else if st.operand_stack.length ≠ result_types.length then
    Except.error "Operand stack size does not match expected result count"
  else
    renderResults valueToString result_types (st.operand_stack.take result_types.length).reverse

/-- WasmVM::run (vm.cpp lines 41-71).  Argument parsing (make_from on
the textual arguments) is abstracted: `args` are the already-converted
Values, pushed left to right.  Only the invoke call is inside the
try/catch; a trap there prints the literal line with the exclamation
mark and the word trap and returns normally.  reset_runtime_state and
print_final_results run outside it, so their exceptions escape. -/
def runWasmVM (f64add : Nat → Nat → Nat) (valueToString : Value → String)
    (m : WasmModuleData) (args : List Value) (fuel : Nat) : RunResult :=
  match m.main_idx with
  | none => { stdout := [], outcome := RunOutcome.envError }
  | some mi =>
    match m.funcs.get? mi with
    | none => { stdout := [], outcome := RunOutcome.envError }
    | some mainF =>
      match reset_runtime_state m with
      | Except.error e => { stdout := [], outcome := RunOutcome.escaped e }
      | Except.ok st0 =>
        if mainF.sig.params.length ≠ args.length then
          { stdout := [], outcome := RunOutcome.envError }
        else
          let st1 := { st0 with operand_stack := args.reverse }
          match invoke f64add fuel st1 mainF with
          | Except.error _ => { stdout := ["!trap"], outcome := RunOutcome.normal }
          | Except.ok none => { stdout := [], outcome := RunOutcome.fuelOut }
          | Except.ok (some stF) =>
            match print_final_results valueToString mainF stF with
            | Except.error e => { stdout := [], outcome := RunOutcome.escaped e }
            | Except.ok lines => { stdout := lines, outcome := RunOutcome.normal }

/-! ## Shared helper definitions and lemmas for the theorems -/

/-- A fixed stand-in for IEEE-754 double addition on bit patterns, used
to instantiate the `f64add` parameter in closed statements.  No theorem
depends on its value. -/
def f64addModel : Nat → Nat → Nat := fun a _ => a

/-- The sum of the pure-local group counts. -/
def sumCounts (groups : List LocalGroup) : Nat := (groups.map (fun g => g.count)).sum

/-- The concatenated zero image of the pure-local groups: for each
(count, type) group, `count` copies of the zero value of `type`. -/
def zeroLocals (groups : List LocalGroup) : List Value :=
  (groups.map (fun g => List.replicate g.count (zero_value_for g.type))).flatten

theorem stackResize_length (s : List Value) (h : Nat) : (stackResize s h).length = h := by
  unfold stackResize
  split
  · next hle => simp [List.length_drop, Nat.sub_sub_self hle]
  · next hgt =>
    simp [List.length_append, List.length_replicate]
    omega

/-! ## C1: br_if versus br -/

/-- The function `nop; block (empty); i32.const 7; i32.const 1;
br_if 0; end; end` (offsets: br_if at 7, block end at 9, function end
at 10). -/
def c1FuncBrIf : FuncDecl :=
  { sig := SigDecl.mk [] [], num_pure_locals := 0, pure_locals := [],
    code_bytes := [0x01, 0x02, 0x40, 0x41, 0x07, 0x41, 0x01, 0x0D, 0x00, 0x0B, 0x0B] }

/-- The same function with `br 0` in place of `i32.const 1; br_if 0`
(br at 5, block end at 7, function end at 8). -/
def c1FuncBr : FuncDecl :=
  { sig := SigDecl.mk [] [], num_pure_locals := 0, pure_locals := [],
    code_bytes := [0x01, 0x02, 0x40, 0x41, 0x07, 0x0C, 0x00, 0x0B, 0x0B] }

/-- The block label both branch states target: stack_height 0, branch
target its end opcode (offset 9 resp. 7 in the two functions). -/
def c1BlockLabelBrIf : Label := Label.mk LabelKind.Block (some 9) none 0

def c1BlockLabelBr : Label := Label.mk LabelKind.Block (some 7) none 0

/-- The frame of `c1FuncBrIf` about to execute `br_if 0`.  The ctrl_map
is the one pre_indexing computes for this function. -/
def c1FrameBrIf : Frame :=
  { func := c1FuncBrIf, pc := 7, locals := [],
    labels := [c1BlockLabelBrIf, Label.mk LabelKind.Implicit none none 0],
    stack_height_on_entry := 0,
    ctrl_map := [(1, CtrlMeta.mk LabelKind.Block none (some 9)),
                 (0, CtrlMeta.mk LabelKind.Block none (some 10))] }

/-- The matching frame of `c1FuncBr` about to execute `br 0`. -/
def c1FrameBr : Frame :=
  { func := c1FuncBr, pc := 5, locals := [],
    labels := [c1BlockLabelBr, Label.mk LabelKind.Implicit none none 0],
    stack_height_on_entry := 0,
    ctrl_map := [(1, CtrlMeta.mk LabelKind.Block none (some 7)),
                 (0, CtrlMeta.mk LabelKind.Block none (some 8))] }

/-- The state about to execute `br_if 0` with condition 1 on top and one
extra value (7) above the block label's recorded height. -/
def c1StateBrIf : VMState :=
  { operand_stack := [Value.i32 1, Value.i32 7], call_stack := [c1FrameBrIf],
    linear_memory := [], global_values := [], function_instances := [],
    table_instances := [], module_sigs := [], num_imported_tables := 0 }

/-- The matching state about to execute `br 0`: the same labels and the
same extra value, the taken condition already absent. -/
def c1StateBr : VMState :=
  { operand_stack := [Value.i32 7], call_stack := [c1FrameBr],
    linear_memory := [], global_values := [], function_instances := [],
    table_instances := [], module_sigs := [], num_imported_tables := 0 }

/-- C1: refuted — `br_if n` with a nonzero condition does NOT behave as
`br n`.  At the concrete state above (br_if 0, condition 1, one operand
above the target label's stack_height 0): the code pops the target
label itself off the label stack and leaves the operand stack depth at
1, whereas the claim (br semantics) requires the operand depth to be
restored to the target label's stack_height 0 — as the code's own `br 0`
at the matching state indeed does, while also keeping the target label
exposed.  The spec itself flags an implementation that pops only one
label as buggy, so this is a code bug. -/
theorem c1_br_if_not_br :
    (run_op f64addModel c1StateBrIf = Except.ok
      { c1StateBrIf with
        operand_stack := [Value.i32 7],
        call_stack :=
          [{ c1FrameBrIf with
             pc := 9, labels := [Label.mk LabelKind.Implicit none none 0] }] }) ∧
    ([Value.i32 7].length ≠ c1BlockLabelBrIf.stack_height) ∧
    (run_op f64addModel c1StateBr = Except.ok
      { c1StateBr with
        operand_stack := [],
        call_stack :=
          [{ c1FrameBr with
             pc := 7,
             labels := [c1BlockLabelBr, Label.mk LabelKind.Implicit none none 0] }] }) ∧
    ([] : List Value).length = c1BlockLabelBr.stack_height := by
  refine ⟨?_, by decide, ?_, by decide⟩
  · rfl
  · rfl

/-! ## C2: the else opcode -/

/-- The function `nop; if (empty); i32.const 5; i32.const 9; else;
i32.const 6; end; end` (else at offset 7, if end at 10, function end
at 11). -/
def c2Func : FuncDecl :=
  { sig := SigDecl.mk [] [], num_pure_locals := 0, pure_locals := [],
    code_bytes := [0x01, 0x04, 0x40, 0x41, 0x05, 0x41, 0x09, 0x05, 0x41, 0x06, 0x0B, 0x0B] }

/-- The if label at the moment the else is reached: the truthy branch
entered with one value on the stack (height 1 recorded before the
condition pop) and pushed two constants. -/
def c2IfLabel : Label := Label.mk LabelKind.If (some 10) none 1

def c2Frame : Frame :=
  { func := c2Func, pc := 7, locals := [],
    labels := [c2IfLabel, Label.mk LabelKind.Implicit none none 0],
    stack_height_on_entry := 0,
    ctrl_map := [(1, CtrlMeta.mk LabelKind.If (some 8) (some 10)),
                 (0, CtrlMeta.mk LabelKind.Block none (some 11))] }

/-- The state about to execute the `else`, with operand depth 2 while
the if label recorded height 1. -/
def c2State : VMState :=
  { operand_stack := [Value.i32 9, Value.i32 5], call_stack := [c2Frame],
    linear_memory := [], global_values := [], function_instances := [],
    table_instances := [], module_sigs := [], num_imported_tables := 0 }

/-- C2: refuted in its restore clause — at the concrete else state the
dispatcher pops the if label and jumps to its end target, but leaves
the operand stack untouched: depth stays 2, not the label's
stack_height 1. -/
theorem c2_counterexample :
    (run_op f64addModel c2State = Except.ok
      { c2State with
        call_stack :=
          [{ c2Frame with
             pc := 10, labels := [Label.mk LabelKind.Implicit none none 0] }] }) ∧
    (Value.i32 9 :: Value.i32 5 :: []).length ≠ c2IfLabel.stack_height := by
  exact ⟨rfl, by decide⟩

/-- C2 amended: when the dispatcher reaches an `else` opcode, it pops
the `if` label from the frame's label stack and sets pc to that label's
recorded end target (the end opcode byte); the operand stack is left
unchanged (no restore to the label's stack_height takes place). -/
theorem c2_else_amended (g : Nat → Nat → Nat) (ops : List Value) (mem : List Nat)
    (gl : List Value) (fi : List FuncDecl) (ti : List (List (Option Nat)))
    (sigs : List SigDecl) (nit : Nat) (fr : Frame) (rest : List Frame)
    (ifL : Label) (ls : List Label) (e : Nat)
    (hop : fr.func.code_bytes.get? fr.pc = some 0x05)
    (hl : fr.labels = ifL :: ls)
    (hk : ifL.kind = LabelKind.If)
    (ht : ifL.pc_target = some e) :
    run_op g (VMState.mk ops (fr :: rest) mem gl fi ti sigs nit) =
      Except.ok (VMState.mk ops ({ fr with pc := e, labels := ls } :: rest) mem gl fi ti sigs nit) := by
  simp only [run_op, readByte, hop]
  simp only [runOpCase, hl, hk, ht]
  norm_num

/-- C2 amended, witnessed at the concrete else state. -/
theorem c2_else_amended_witness :
    run_op f64addModel
      (VMState.mk [Value.i32 9, Value.i32 5] (c2Frame :: []) [] [] [] [] [] 0) =
      Except.ok
        (VMState.mk [Value.i32 9, Value.i32 5]
          ({ c2Frame with
             pc := 10, labels := [Label.mk LabelKind.Implicit none none 0] } :: [])
          [] [] [] [] [] 0) := by
  exact c2_else_amended f64addModel [Value.i32 9, Value.i32 5] [] [] [] [] [] 0 c2Frame []
    c2IfLabel [Label.mk LabelKind.Implicit none none 0] 10 (by rfl) (by rfl) (by rfl) (by rfl)

/-! ## C3: the implicit function-body label -/

/-- A minimal function: empty signature, body a single end opcode. -/
def c3Func : FuncDecl :=
  { sig := SigDecl.mk [] [], num_pure_locals := 0, pure_locals := [],
    code_bytes := [0x0B] }

/-- An empty VM state to invoke `c3Func` from. -/
def c3State : VMState :=
  { operand_stack := [], call_stack := [], linear_memory := [], global_values := [],
    function_instances := [], table_instances := [], module_sigs := [],
    num_imported_tables := 0 }

/-- C3: refuted in its target_pc clause — the frame add_frame pushes for
`c3Func` carries the implicit function-body label with kind Implicit and
stack_height equal to stack_height_on_entry, but its target_pc is null
(the source never assigns it), not the end of the code bytes, so a `br`
targeting this label has no end-of-code target to jump to. -/
theorem c3_counterexample :
    (add_frame c3State c3Func = Except.ok
      { c3State with
        call_stack :=
          [{ func := c3Func, pc := 0, locals := [],
             labels := [Label.mk LabelKind.Implicit none none 0],
             stack_height_on_entry := 0,
             ctrl_map := [(0, CtrlMeta.mk LabelKind.Block none (some 0))] }] }) ∧
    (Label.mk LabelKind.Implicit none none 0).pc_target ≠ some c3Func.code_bytes.length := by
  exact ⟨rfl, by decide⟩

/-- C3 amended: for every function whose pre-indexing succeeds and
enough operands for its parameters, the created frame pushes exactly one
bottom label, of kind Implicit, whose stack_height equals the recorded
stack_height_on_entry (the operand depth after the parameter pops) and
whose target_pc is null — never the end of the code bytes.  `return`
leaves the function through its own dispatcher case without consulting
this label; a `br` that targets it finds a null target. -/
theorem c3_add_frame_amended (st : VMState) (f : FuncDecl)
    (cm : List (Nat × CtrlMeta))
    (hpre : pre_indexing f = Except.ok cm)
    (hlen : f.sig.params.length ≤ st.operand_stack.length) :
    ∃ L, add_frame st f = Except.ok
      { st with
        operand_stack := st.operand_stack.drop f.sig.params.length,
        call_stack :=
          { func := f, pc := 0, locals := L,
            labels := [Label.mk LabelKind.Implicit none none
              (st.operand_stack.length - f.sig.params.length)],
            stack_height_on_entry :=
              st.operand_stack.length - f.sig.params.length,
            ctrl_map := cm } :: st.call_stack } := by
  refine ⟨(fillGroups
    (writeParamsGo (List.replicate (f.sig.params.length + f.num_pure_locals) defaultValue)
      (st.operand_stack.take f.sig.params.length) f.sig.params.length)
    f.sig.params.length f.pure_locals).1, ?_⟩
  simp only [add_frame, hpre, build_locals_for, Nat.not_lt.mpr hlen, if_false,
    List.length_drop]

/-- C3 amended, witnessed on `c3Func` from the empty state. -/
theorem c3_add_frame_amended_witness :
    ∃ L, add_frame c3State c3Func = Except.ok
      { c3State with
        operand_stack := c3State.operand_stack.drop c3Func.sig.params.length,
        call_stack :=
          { func := c3Func, pc := 0, locals := L,
            labels := [Label.mk LabelKind.Implicit none none
              (c3State.operand_stack.length - c3Func.sig.params.length)],
            stack_height_on_entry :=
              c3State.operand_stack.length - c3Func.sig.params.length,
            ctrl_map := [(0, CtrlMeta.mk LabelKind.Block none (some 0))] } ::
              c3State.call_stack } :=
  c3_add_frame_amended c3State c3Func [(0, CtrlMeta.mk LabelKind.Block none (some 0))]
    (by rfl) (by decide)

/-! ## C4: memory access bounds arithmetic -/

/-- A function whose body is a single `i32.load` with align 0 and
offset 4294967292 (LEB fc ff ff ff 0f). -/
def c4Func : FuncDecl :=
  { sig := SigDecl.mk [] [], num_pure_locals := 0, pure_locals := [],
    code_bytes := [0x28, 0x00, 0xFC, 0xFF, 0xFF, 0xFF, 0x0F] }

def c4Frame : Frame :=
  { func := c4Func, pc := 0, locals := [],
    labels := [Label.mk LabelKind.Implicit none none 0],
    stack_height_on_entry := 0,
    ctrl_map := [(0, CtrlMeta.mk LabelKind.Block none (some 7))] }

/-- The state about to execute the load: address 0 on the stack, linear
memory of 4 bytes. -/
def c4State : VMState :=
  { operand_stack := [Value.i32 0], call_stack := [c4Frame],
    linear_memory := [0, 0, 0, 0], global_values := [], function_instances := [],
    table_instances := [], module_sigs := [], num_imported_tables := 0 }

/-- C4: refuted — the bounds check wraps.  With address 0 and offset
4294967292 the effective address is 4294967292 and the exact
effective_addr + 4 = 2 to the power 32 exceeds the 4-byte memory, so the
claim demands a trap; but the code computes (4294967292 + 4) mod 2 to
the power 32 = 0, the check passes, no trap is raised, and the
subsequent memcpy reads far out of bounds (undefined behaviour in the
C++; modelled as reading zero).  The store check is the same
arithmetic. -/
theorem c4_bounds_check_wraps :
    (run_op f64addModel c4State = Except.ok
      { c4State with operand_stack := [Value.i32 0],
                     call_stack := [{ c4Frame with pc := 7 }] }) ∧
    4294967292 + 4 > c4State.linear_memory.length := by
  exact ⟨rfl, by decide⟩

/-! ## C6: completeness and correctness of ctrl_map -/

/-- The function whose body is `block (empty); end; end`: a block header
at offset 0, its matching end at offset 2, the function-body end at
offset 3. -/
def c6Func : FuncDecl :=
  { sig := SigDecl.mk [] [], num_pure_locals := 0, pure_locals := [],
    code_bytes := [0x02, 0x40, 0x0B, 0x0B] }

/-- C6: refuted — pre-indexing `c6Func` succeeds but produces a map with
a SINGLE entry: the implicit function-body entry is keyed at offset 0,
the very same key as the block header at offset 0, and it overwrites the
block's completed entry.  The surviving entry's end_pc is 3 (the
function's final end), not 2 (the block's matching end), so the block
header's entry does not point at its matching end and the block's own
end offset appears nowhere in the map. -/
theorem c6_ctrl_map_collision :
    pre_indexing c6Func = Except.ok [(0, CtrlMeta.mk LabelKind.Block none (some 3))] ∧
    c6Func.code_bytes.get? 0 = some 0x02 ∧
    c6Func.code_bytes.get? 2 = some 0x0B ∧
    (2 : Nat) ≠ 3 := by
  exact ⟨rfl, by decide, by decide, by decide⟩

/-! ## C7: br_table -/

/-- The function `nop; block (empty); i32.const 0; br_table 1 0 0; end;
end` — br_table at offset 5 with one target, index 0 on the stack, all
targets in range. -/
def c7Func : FuncDecl :=
  { sig := SigDecl.mk [] [], num_pure_locals := 0, pure_locals := [],
    code_bytes := [0x01, 0x02, 0x40, 0x41, 0x00, 0x0E, 0x01, 0x00, 0x00, 0x0B, 0x0B] }

def c7Frame : Frame :=
  { func := c7Func, pc := 5, locals := [],
    labels := [Label.mk LabelKind.Block (some 9) none 0,
               Label.mk LabelKind.Implicit none none 0],
    stack_height_on_entry := 0,
    ctrl_map := [(1, CtrlMeta.mk LabelKind.Block none (some 9)),
                 (0, CtrlMeta.mk LabelKind.Block none (some 10))] }

/-- The state about to execute the br_table with a valid in-range index
on the operand stack. -/
def c7State : VMState :=
  { operand_stack := [Value.i32 0], call_stack := [c7Frame],
    linear_memory := [], global_values := [], function_instances := [],
    table_instances := [], module_sigs := [], num_imported_tables := 0 }

/-- C7: refuted — executing `br_table` does not read its targets and
branch; the dispatcher has no case for it, so even with a well-formed
immediate list, an in-range i32 index on the stack and valid labels it
falls into the default case and traps with an opcode error. -/
theorem c7_counterexample :
    run_op f64addModel c7State = Except.error "Opcode error" ∧
    c7Func.code_bytes.get? 5 = some 0x0E := by
  exact ⟨rfl, by decide⟩

/-- C7 amended: executing `br_table` always traps with an opcode error
(the dispatcher does not implement it); only skip_immediate, used by
pre-indexing, knows its immediate layout — a target count N, N LEB
targets, then the default target — as the concrete skip over the
immediates of `c7Func` (count 1 at offset 6, one target, one default,
landing on the end at offset 9) shows. -/
theorem c7_br_table_amended :
    (∀ (g : Nat → Nat → Nat) (ops : List Value) (mem : List Nat)
      (gl : List Value) (fi : List FuncDecl) (ti : List (List (Option Nat)))
      (sigs : List SigDecl) (nit : Nat) (fr : Frame) (rest : List Frame),
      fr.func.code_bytes.get? fr.pc = some 0x0E →
      run_op g (VMState.mk ops (fr :: rest) mem gl fi ti sigs nit) =
        Except.error "Opcode error") ∧
    skip_immediate 0x0E c7Func.code_bytes 6 = some 9 := by
  constructor
  · intro g ops mem gl fi ti sigs nit fr rest hop
    simp only [run_op, readByte, hop]
    simp only [runOpCase]
    norm_num
  · rfl

/-- C7 amended, witnessed at the concrete br_table state. -/
theorem c7_br_table_amended_witness :
    run_op f64addModel (VMState.mk [Value.i32 0] (c7Frame :: []) [] [] [] [] [] 0) =
      Except.error "Opcode error" :=
  c7_br_table_amended.1 f64addModel [Value.i32 0] [] [] [] [] [] 0 c7Frame [] (by rfl)

/-! ## C5: function return -/

/-- C5: confirmed.  On a function return — a `return` opcode, or an
`end` that closes the last remaining (implicit function-body) label —
with R = |sig.results|: the dispatcher traps when the operand stack
holds fewer than R values; otherwise it pops the frame, keeps the top R
values in their original order on top of the operand stack restored (by
vector resize) to stack_height_on_entry, so the final depth is
stack_height_on_entry + R. -/
theorem c5_function_return (g : Nat → Nat → Nat) (ops : List Value) (mem : List Nat)
    (gl : List Value) (fi : List FuncDecl) (ti : List (List (Option Nat)))
    (sigs : List SigDecl) (nit : Nat) (fr : Frame) (rest : List Frame)
    (hop : fr.func.code_bytes.get? fr.pc = some 0x0F ∨
           (fr.func.code_bytes.get? fr.pc = some 0x0B ∧ ∃ l, fr.labels = [l])) :
    (ops.length < fr.func.sig.results.length →
      run_op g (VMState.mk ops (fr :: rest) mem gl fi ti sigs nit) =
        Except.error "Not enough values on the operand stack for function return") ∧
    (fr.func.sig.results.length ≤ ops.length →
      run_op g (VMState.mk ops (fr :: rest) mem gl fi ti sigs nit) =
        Except.ok (VMState.mk
          (ops.take fr.func.sig.results.length ++
            stackResize (ops.drop fr.func.sig.results.length) fr.stack_height_on_entry)
          rest mem gl fi ti sigs nit) ∧
      (ops.take fr.func.sig.results.length ++
        stackResize (ops.drop fr.func.sig.results.length) fr.stack_height_on_entry).length =
        fr.stack_height_on_entry + fr.func.sig.results.length) := by
  have hlen : ∀ h : fr.func.sig.results.length ≤ ops.length,
      (ops.take fr.func.sig.results.length ++
        stackResize (ops.drop fr.func.sig.results.length) fr.stack_height_on_entry).length =
        fr.stack_height_on_entry + fr.func.sig.results.length := by
    intro h
    simp only [List.length_append, List.length_take, stackResize_length,
      Nat.min_eq_left h]
    omega
  rcases hop with hop | ⟨hop, l, hl⟩
  · constructor
    · intro hlt
      simp only [run_op, readByte, hop]
      simp only [runOpCase]
      norm_num [hlt]
    · intro hge
      refine ⟨?_, hlen hge⟩
      simp only [run_op, readByte, hop]
      simp only [runOpCase]
      norm_num [Nat.not_lt.mpr hge, List.reverse_reverse]
  · constructor
    · intro hlt
      simp only [run_op, readByte, hop]
      simp only [runOpCase, hl]
      norm_num [hlt]
    · intro hge
      refine ⟨?_, hlen hge⟩
      simp only [run_op, readByte, hop]
      simp only [runOpCase, hl]
      norm_num [Nat.not_lt.mpr hge, List.reverse_reverse]

/-- C5, witnessed: a `return` in a function with one i32 result, one
result value on the stack above entry height 1, padded caller values
below. -/
theorem c5_function_return_witness :
    run_op f64addModel
      (VMState.mk [Value.i32 5, Value.i32 8, Value.i32 9]
        ({ func := FuncDecl.mk (SigDecl.mk [] [WasmType.i32]) 0 [] [0x0F], pc := 0,
           locals := [], labels := [Label.mk LabelKind.Implicit none none 1],
           stack_height_on_entry := 1,
           ctrl_map := [(0, CtrlMeta.mk LabelKind.Block none (some 0))] } :: [])
        [] [] [] [] [] 0) =
      Except.ok (VMState.mk
        ([Value.i32 5, Value.i32 8, Value.i32 9].take 1 ++
          stackResize ([Value.i32 5, Value.i32 8, Value.i32 9].drop 1) 1)
        [] [] [] [] [] [] 0) :=
  ((c5_function_return f64addModel [Value.i32 5, Value.i32 8, Value.i32 9] [] [] [] [] [] 0
      { func := FuncDecl.mk (SigDecl.mk [] [WasmType.i32]) 0 [] [0x0F], pc := 0,
        locals := [], labels := [Label.mk LabelKind.Implicit none none 1],
        stack_height_on_entry := 1,
        ctrl_map := [(0, CtrlMeta.mk LabelKind.Block none (some 0))] } []
      (Or.inl (by rfl))).2 (by decide)).1

/-! ## C8: trap reporting -/

/-- A fixed stand-in for the numeric formatting of results (the
std::cout rendering); no theorem depends on its value. -/
def c8ValueToString : Value → String := fun _ => ""

/-- A module whose instantiation traps: zero memory pages but a one-byte
data segment at offset 0, with a well-formed exported main. -/
def c8EscapeModule : WasmModuleData :=
  { funcs := [FuncDecl.mk (SigDecl.mk [] []) 0 [] [0x0B]],
    global_inits := [], datas := [DataSegment.mk 0 [1]], elems := [],
    initial_pages := 0, local_table_sizes := [], num_imported_tables := 0,
    sigs := [], main_idx := some 0 }

/-- A module whose main immediately executes `unreachable` (body:
unreachable; end), so the trap is raised during dispatch, inside the
try block. -/
def c8TrapModule : WasmModuleData :=
  { funcs := [FuncDecl.mk (SigDecl.mk [] []) 0 [] [0x00, 0x0B]],
    global_inits := [], datas := [], elems := [],
    initial_pages := 0, local_table_sizes := [], num_imported_tables := 0,
    sigs := [], main_idx := some 0 }

/-- C8: refuted for instantiation traps — the data-segment overflow trap
of `c8EscapeModule` is raised by reset_runtime_state BEFORE the
try/catch in WasmVM::run, so the exception escapes run uncaught and
nothing (in particular no trap line) is printed to stdout. -/
theorem c8_counterexample :
    runWasmVM f64addModel c8ValueToString c8EscapeModule [] 10 =
      RunResult.mk [] (RunOutcome.escaped "Data segment does not fit in linear memory") := by
  rfl

/-- C8 amended: for every run whose trap is raised INSIDE invoke — that
is, during pre-indexing, frame setup or dispatch — WasmVM::run catches
the exception, prints exactly the single trap line to stdout and returns
normally (the ERR/stderr paths are not reached); but a trap raised
during instantiation (reset_runtime_state: data or element segments)
happens before the try block and propagates out of run uncaught, with
nothing printed. -/
theorem c8_trap_inside_invoke (g : Nat → Nat → Nat) (vts : Value → String)
    (m : WasmModuleData) (args : List Value) (fuel : Nat) (mi : Nat)
    (mainF : FuncDecl) (st0 : VMState) (msg : String)
    (hmi : m.main_idx = some mi)
    (hmf : m.funcs.get? mi = some mainF)
    (hreset : reset_runtime_state m = Except.ok st0)
    (hargs : mainF.sig.params.length = args.length)
    (hinv : invoke g fuel { st0 with operand_stack := args.reverse } mainF =
      Except.error msg) :
    runWasmVM g vts m args fuel = RunResult.mk ["!trap"] RunOutcome.normal := by
  simp only [runWasmVM, hmi, hmf, hreset, hargs, hinv]
  norm_num

/-- C8 amended, witnessed on the module whose main traps with
`unreachable` during dispatch. -/
theorem c8_trap_inside_invoke_witness :
    runWasmVM f64addModel c8ValueToString c8TrapModule [] 10 =
      RunResult.mk ["!trap"] RunOutcome.normal :=
  c8_trap_inside_invoke f64addModel c8ValueToString c8TrapModule [] 10 0
    (FuncDecl.mk (SigDecl.mk [] []) 0 [] [0x00, 0x0B])
    (VMState.mk [] [] [] [] [FuncDecl.mk (SigDecl.mk [] []) 0 [] [0x00, 0x0B]] [] [] 0)
    "unreachable executed" (by rfl) (by rfl) (by rfl) (by rfl) (by rfl)

/-! ## C9: locals construction -/

theorem take_set_of_le {a : Type} : ∀ (l : List a) (n m : Nat) (v : a), m ≤ n →
    (l.set n v).take m = l.take m
  | [], _, _, _, _ => rfl
  | _ :: _, 0, 0, _, _ => rfl
  | _ :: _, _ + 1, 0, _, _ => rfl
  | x :: t, j + 1, i + 1, v, h => by
    simp only [List.set, List.take]
    rw [take_set_of_le t j i v (Nat.le_of_succ_le_succ h)]

theorem drop_set_same {a : Type} (l : List a) (n : Nat) (v : a) (h : n < l.length) :
    (l.set n v).drop n = v :: l.drop (n + 1) := by
  rw [List.set_eq_take_cons_drop _ h, List.drop_append_of_le_length (by simp [h.le])]
  simp [List.length_take, Nat.min_eq_left h.le]

/-- The parameter loop in closed form: writing the popped values `vals`
downward from slot k-1 replaces the slots [k - |vals|, k) by
`vals.reverse`. -/
theorem writeParamsGo_closed : ∀ (vals locals : List Value) (k : Nat),
    vals.length ≤ k → k ≤ locals.length →
    writeParamsGo locals vals k =
      locals.take (k - vals.length) ++ vals.reverse ++ locals.drop k
  | [], locals, k, _, _ => by
    simp [writeParamsGo, List.take_append_drop]
  | v :: rest, locals, 0, hv, _ => by
    exact absurd hv (by simp)
  | v :: rest, locals, j + 1, hv, hk => by
    have hjl : j < locals.length := Nat.lt_of_lt_of_le (Nat.lt_succ_self j) hk
    have h1 : rest.length ≤ j := Nat.le_of_succ_le_succ hv
    have h2 : j ≤ (locals.set j v).length := by simp [List.length_set]; omega
    simp only [writeParamsGo]
    rw [writeParamsGo_closed rest (locals.set j v) j h1 h2]
    rw [take_set_of_le locals j (j - rest.length) v (Nat.sub_le j rest.length)]
    rw [drop_set_same locals j v hjl]
    rw [show (j + 1) - (v :: rest).length = j - rest.length by simp]
    simp [List.reverse_cons, List.append_assoc]

/-- One zero-fill group in closed form. -/
theorem fillGroup_closed : ∀ (c next : Nat) (l : List Value) (t : WasmType),
    next + c ≤ l.length →
    fillGroup l next c t =
      (l.take next ++ List.replicate c (zero_value_for t) ++ l.drop (next + c), next + c)
  | 0, next, l, t, _ => by
    simp [fillGroup, List.take_append_drop]
  | c + 1, next, l, t, h => by
    have hnl : next < l.length := by omega
    have h2 : next + 1 + c ≤ (l.set next (zero_value_for t)).length := by
      simp [List.length_set]; omega
    simp only [fillGroup]
    rw [fillGroup_closed c (next + 1) (l.set next (zero_value_for t)) t h2]
    rw [List.set_eq_take_cons_drop _ hnl]
    have hlt : (l.take next).length = next := by
      simp [List.length_take, Nat.min_eq_left hnl.le]
    simp only [Prod.mk.injEq]
    constructor
    · rw [show next + 1 = (l.take next).length + 1 by omega]
      rw [List.take_append]
      rw [show (l.take next).length + 1 + c = (l.take next).length + (1 + c) by omega]
      rw [List.drop_append]
      rw [hlt]
      rw [show (1 : Nat) + c = c + 1 by omega]
      rw [List.drop_succ_cons]
      rw [List.drop_drop]
      simp [List.replicate_succ, List.append_assoc, List.take_succ_cons,
        show next + 1 + c = next + (c + 1) by omega]
    · omega

/-- The group loop in closed form: with the groups summing inside the
vector, the slots from `next` on become the concatenated zero image. -/
theorem fillGroups_closed : ∀ (groups : List LocalGroup) (l : List Value) (next : Nat),
    next + sumCounts groups ≤ l.length →
    fillGroups l next groups =
      (l.take next ++ zeroLocals groups ++ l.drop (next + sumCounts groups),
        next + sumCounts groups)
  | [], l, next, _ => by
    simp [fillGroups, sumCounts, zeroLocals, List.take_append_drop]
  | g :: rest, l, next, h => by
    have hsum : sumCounts (g :: rest) = g.count + sumCounts rest := by
      simp [sumCounts]
    have hg : next + g.count ≤ l.length := by omega
    simp only [fillGroups]
    rw [fillGroup_closed g.count next l g.type hg]
    have hlen2 : (l.take next ++ List.replicate g.count (zero_value_for g.type) ++
        l.drop (next + g.count)).length = l.length := by
      simp [List.length_take, List.length_replicate, List.length_drop]
      omega
    have hrec : next + g.count + sumCounts rest ≤
        (l.take next ++ List.replicate g.count (zero_value_for g.type) ++
          l.drop (next + g.count)).length := by
      rw [hlen2]; omega
    rw [fillGroups_closed rest _ (next + g.count) hrec]
    have hpre : (l.take next ++ List.replicate g.count (zero_value_for g.type)).length =
        next + g.count := by
      simp [List.length_take, List.length_replicate]
      omega
    simp only [Prod.mk.injEq]
    constructor
    · have hAB : (l.take next ++ List.replicate g.count (zero_value_for g.type) ++
          l.drop (next + g.count)).take (next + g.count) =
          l.take next ++ List.replicate g.count (zero_value_for g.type) :=
        List.take_left' hpre
      have hCD : (l.take next ++ List.replicate g.count (zero_value_for g.type) ++
          l.drop (next + g.count)).drop (next + g.count + sumCounts rest) =
          (l.drop (next + g.count)).drop (sumCounts rest) := by
        rw [show next + g.count + sumCounts rest =
          (l.take next ++ List.replicate g.count (zero_value_for g.type)).length +
            sumCounts rest by omega]
        exact List.drop_append _
      rw [hAB, hCD]
      rw [List.drop_drop]
      rw [show next + g.count + sumCounts rest = next + sumCounts (g :: rest) by omega]
      simp [zeroLocals, List.append_assoc]
    · omega

/-- The length of the zero image is the sum of the group counts. -/
theorem zeroLocals_length (groups : List LocalGroup) :
    (zeroLocals groups).length = sumCounts groups := by
  simp [zeroLocals, sumCounts, List.length_flatten, Function.comp_def, List.map_map]

/-- C9: confirmed (with the parser-provided num_pure_locals equal to the
sum of the group counts, as the spec defines it).  Invoking a function
with P parameters traps when the operand stack holds fewer than P
values; otherwise the locals vector is the reversed popped parameters
followed by the zero image of the pure-local groups: its size is
P + sum of counts, slot P-1-i holds the i-th popped value, and every
remaining slot holds the zero value of its declared kind. -/
theorem c9_build_locals (ops : List Value) (f : FuncDecl)
    (hn : f.num_pure_locals = sumCounts f.pure_locals) :
    (ops.length < f.sig.params.length →
      build_locals_for ops f =
        Except.error "Not enough values on the operand stack for function parameters") ∧
    (f.sig.params.length ≤ ops.length →
      build_locals_for ops f =
        Except.ok ((ops.take f.sig.params.length).reverse ++ zeroLocals f.pure_locals,
          ops.drop f.sig.params.length) ∧
      ((ops.take f.sig.params.length).reverse ++ zeroLocals f.pure_locals).length =
        f.sig.params.length + sumCounts f.pure_locals ∧
      (∀ i, i < f.sig.params.length →
        ((ops.take f.sig.params.length).reverse ++ zeroLocals f.pure_locals).get?
          (f.sig.params.length - 1 - i) = ops.get? i)) := by
  constructor
  · intro hlt
    simp [build_locals_for, hlt]
  · intro hge
    have hP : (ops.take f.sig.params.length).length = f.sig.params.length := by
      simp [List.length_take, Nat.min_eq_left hge]
    have hmain : build_locals_for ops f =
        Except.ok ((ops.take f.sig.params.length).reverse ++ zeroLocals f.pure_locals,
          ops.drop f.sig.params.length) := by
      simp only [build_locals_for, Nat.not_lt.mpr hge, if_false]
      rw [writeParamsGo_closed (ops.take f.sig.params.length)
        (List.replicate (f.sig.params.length + f.num_pure_locals) defaultValue)
        f.sig.params.length (by omega) (by simp [List.length_replicate])]
      rw [hP]
      simp only [Nat.sub_self, List.take_zero, List.nil_append, List.drop_replicate,
        Nat.add_sub_cancel_left]
      have hrevlen : ((ops.take f.sig.params.length).reverse ++
          List.replicate f.num_pure_locals defaultValue).length =
          f.sig.params.length + f.num_pure_locals := by
        simp [List.length_reverse, hP, List.length_replicate]
      rw [fillGroups_closed f.pure_locals _ f.sig.params.length (by rw [hrevlen]; omega)]
      rw [List.take_left' (by simp [List.length_reverse, hP])]
      rw [show f.sig.params.length + sumCounts f.pure_locals =
        (ops.take f.sig.params.length).reverse.length + sumCounts f.pure_locals by
          simp [List.length_reverse, hP]]
      rw [List.drop_append]
      simp [List.drop_replicate, hn]
    refine ⟨hmain, ?_, ?_⟩
    · simp [List.length_append, List.length_reverse, hP, zeroLocals_length]
    · intro i hi
      have hrl : (ops.take f.sig.params.length).reverse.length = f.sig.params.length := by
        simp [List.length_reverse, hP]
      rw [List.get?_append (by rw [hrl]; omega)]
      rw [List.get?_reverse (by rw [hP]; omega)]
      rw [hP]
      rw [show f.sig.params.length - 1 - (f.sig.params.length - 1 - i) = i by omega]
      exact List.get?_take hi

/-- C9, witnessed: two i32 parameters and a pure-locals group of one
i64, invoked with three values on the stack. -/
theorem c9_build_locals_witness :
    build_locals_for [Value.i32 10, Value.i32 20, Value.i32 30]
      (FuncDecl.mk (SigDecl.mk [WasmType.i32, WasmType.i32] []) 1
        [LocalGroup.mk 1 WasmType.i64] [0x0B]) =
      Except.ok
        (([Value.i32 10, Value.i32 20, Value.i32 30].take 2).reverse ++
          zeroLocals [LocalGroup.mk 1 WasmType.i64],
         [Value.i32 10, Value.i32 20, Value.i32 30].drop 2) :=
  ((c9_build_locals [Value.i32 10, Value.i32 20, Value.i32 30]
      (FuncDecl.mk (SigDecl.mk [WasmType.i32, WasmType.i32] []) 1
        [LocalGroup.mk 1 WasmType.i64] [0x0B])
      (by decide)).2 (by decide)).1

/-! ## C10: unimplemented opcodes -/

/-- The opcode bytes the dispatcher has a case for (every other byte
falls into the default case). -/
def implementedOpcodes : List Nat :=
  [0x41, 0x42, 0x43, 0x44, 0x20, 0x21, 0x22, 0x02, 0x03, 0x04, 0x05, 0x48, 0x45,
   0x6A, 0x6B, 0x28, 0x36, 0x46, 0xA0, 0x01, 0x00, 0x0B, 0x0F, 0x10, 0x11, 0x1A,
   0x1B, 0x0C, 0x0D, 0x23, 0x24]

/-- C10: confirmed.  Executing any opcode outside the implemented set —
in particular every division and remainder opcode, every i64 and f32
arithmetic opcode, the narrow and non-i32 loads and stores, memory.size,
memory.grow and br_table — traps with an opcode error regardless of the
operand stack contents or any other state. -/
theorem c10_unimplemented_opcodes_trap (g : Nat → Nat → Nat) (ops : List Value)
    (mem : List Nat) (gl : List Value) (fi : List FuncDecl)
    (ti : List (List (Option Nat))) (sigs : List SigDecl) (nit : Nat)
    (fr : Frame) (rest : List Frame) (op : Nat)
    (hop : fr.func.code_bytes.get? fr.pc = some op)
    (hni : op ∉ implementedOpcodes) :
    run_op g (VMState.mk ops (fr :: rest) mem gl fi ti sigs nit) =
      Except.error "Opcode error" := by
  simp only [implementedOpcodes, List.mem_cons, List.not_mem_nil, or_false, not_or] at hni
  obtain ⟨h41, h42, h43, h44, h20, h21, h22, h02, h03, h04, h05, h48, h45, h6A, h6B,
    h28, h36, h46, hA0, h01, h00, h0B, h0F, h10, h11, h1A, h1B, h0C, h0D, h23, h24⟩ := hni
  simp only [run_op, readByte, hop]
  simp only [runOpCase, if_neg h41, if_neg h42, if_neg h43, if_neg h44, if_neg h20,
    if_neg h21, if_neg h22, if_neg h02, if_neg h03, if_neg h04, if_neg h05, if_neg h48,
    if_neg h45, if_neg h6A, if_neg h6B, if_neg h28, if_neg h36, if_neg h46, if_neg hA0,
    if_neg h01, if_neg h00, if_neg h0B, if_neg h0F, if_neg h10, if_neg h11, if_neg h1A,
    if_neg h1B, if_neg h0C, if_neg h0D, if_neg h23, if_neg h24]

/-- C10, witnessed on the i32.div_s opcode with values on the operand
stack that a division would consume. -/
theorem c10_unimplemented_opcodes_trap_witness :
    run_op f64addModel
      (VMState.mk [Value.i32 6, Value.i32 2]
        ({ func := FuncDecl.mk (SigDecl.mk [] []) 0 [] [0x6D, 0x0B], pc := 0,
           locals := [], labels := [Label.mk LabelKind.Implicit none none 0],
           stack_height_on_entry := 0,
           ctrl_map := [(0, CtrlMeta.mk LabelKind.Block none (some 1))] } :: [])
        [] [] [] [] [] 0) = Except.error "Opcode error" :=
  c10_unimplemented_opcodes_trap f64addModel [Value.i32 6, Value.i32 2] [] [] [] [] [] 0
    { func := FuncDecl.mk (SigDecl.mk [] []) 0 [] [0x6D, 0x0B], pc := 0,
      locals := [], labels := [Label.mk LabelKind.Implicit none none 0],
      stack_height_on_entry := 0,
      ctrl_map := [(0, CtrlMeta.mk LabelKind.Block none (some 1))] } []
    0x6D (by rfl) (by decide)

end Vm
